import Mathlib

/-!
Verification of the RGB25 interface module (`src/interface/rgb25.rs`) of the
rgb-wallet repository: a shallow embedding of the schema value built by
`rgb25()`, the pinned interface identity, and the `Rgb25` typed-wrapper
accessors, together with theorems settling the specified properties.

Rust panics (explicit panic calls, `.expect`, out-of-range indexing) are
modelled as `Except.error`; machine integers are modelled as `Nat` (the
amount type's overflow policy is an external primitive per the spec).
-/

namespace RgbWallet

/-- Occurrence constraint kinds used by the interface, as in the source
(`Occurrences::Once`, `NoneOrOnce`, `OnceOrMore`, `NoneOrMore`). -/
inductive Occurrences
  | Once
  | NoneOrOnce
  | OnceOrMore
  | NoneOrMore
  deriving DecidableEq, Repr

/-- Modelled from the spec: each Occurrence kind maps to an inclusive count
range `[min, max]`: `[1,1]`, `[0,1]`, `[1,∞)`, `[0,∞)` (spec §3, §4.2). -/
def Occurrences.minCount : Occurrences → Nat
  | .Once => 1
  | .NoneOrOnce => 0
  | .OnceOrMore => 1
  | .NoneOrMore => 0

/-- Modelled from the spec: the optional upper bound of the occurrence range;
`none` stands for `∞` (spec §3, §4.2). -/
def Occurrences.maxCount : Occurrences → Option Nat
  | .Once => some 1
  | .NoneOrOnce => some 1
  | .OnceOrMore => none
  | .NoneOrMore => none

/-- Modelled from the spec: a bound count `n` is valid for an Occurrence range
`[min,max]` iff `min ≤ n ≤ max` (spec §4.2). -/
def Occurrences.check (o : Occurrences) (n : Nat) : Bool :=
  decide (o.minCount ≤ n) &&
    (match o.maxCount with
     | none => true
     | some m => decide (n ≤ m))

/-- Modelled from the spec: assignment multiplicity requirement (`Req` in the
source; only `OneOrMore` and `NoneOrMore` are used by this module). -/
inductive Req
  | OneOrMore
  | NoneOrMore
  deriving DecidableEq, Repr

/-- Modelled from the spec: a global-state field declaration carries a declared
semantic type (from the external Type Registry, represented by its name) and a
multiplicity requirement (spec §3). -/
structure GlobalIface where
  semId : String
  occ : Occurrences
  deriving DecidableEq, Repr

/-- Constructor `GlobalIface::required`: exactly-once multiplicity. -/
def GlobalIface.required (t : String) : GlobalIface := ⟨t, .Once⟩

/-- Constructor `GlobalIface::optional`: zero-or-one multiplicity. -/
def GlobalIface.optional (t : String) : GlobalIface := ⟨t, .NoneOrOnce⟩

/-- Constructor `GlobalIface::none_or_many`: zero-or-more multiplicity. -/
def GlobalIface.none_or_many (t : String) : GlobalIface := ⟨t, .NoneOrMore⟩

/-- Owned-state kinds used by this module (`OwnedIface::Amount`,
`OwnedIface::Rights`). -/
inductive OwnedIface
  | Amount
  | Rights
  deriving DecidableEq, Repr

/-- Modelled from the spec: an assignment declaration carries a visibility tag
(public or private), an owned-state kind and a multiplicity requirement
(spec §3). -/
structure AssignIface where
  ownedState : OwnedIface
  isPublic : Bool
  required : Req
  deriving DecidableEq, Repr

/-- Constructor `AssignIface::private`: private visibility. -/
def AssignIface.privateState (t : OwnedIface) (r : Req) : AssignIface :=
  ⟨t, false, r⟩

/-- Constructor `AssignIface::public`: public visibility. -/
def AssignIface.publicState (t : OwnedIface) (r : Req) : AssignIface :=
  ⟨t, true, r⟩

/-- Error variant of the schema-wide error map: numeric code plus symbolic
name (`Variant::named` in the source). -/
structure Variant where
  tag : Nat
  vname : String
  deriving DecidableEq, Repr

/-- Constructor `Variant::named`. -/
def Variant.named (tag : Nat) (vname : String) : Variant := ⟨tag, vname⟩

/-- Genesis operation specification (`GenesisIface` in the source). -/
structure GenesisIface where
  metadata : Option String
  globals : List (String × Occurrences)
  assignments : List (String × Occurrences)
  valencies : List String
  errors : List Nat
  deriving DecidableEq, Repr

/-- Transition operation specification (`TransitionIface` in the source). -/
structure TransitionIface where
  optional : Bool
  metadata : Option String
  globals : List (String × Occurrences)
  inputs : List (String × Occurrences)
  assignments : List (String × Occurrences)
  valencies : List String
  errors : List Nat
  default_assignment : Option String
  deriving DecidableEq, Repr

/-- Interface version (`VerNo::V1` in the source). -/
inductive VerNo
  | V1
  deriving DecidableEq, Repr

/-- Type-system reference held by the interface (`Types::Strict` in the
source); the external type system is represented by its registry name. -/
inductive Types
  | Strict (sys : String)
  deriving DecidableEq, Repr

/-- Key ordering used by the canonical (sorted) map representation: keys are
compared by their character sequences. -/
def keyLe {α : Type} (a b : String × α) : Prop := a.1.data ≤ b.1.data

/-- Strict key ordering, used to state uniqueness of the canonical form. -/
def keyLt {α : Type} (a b : String × α) : Prop := a.1.data < b.1.data

instance {α : Type} : DecidableRel (keyLe (α := α)) :=
  fun a b => inferInstanceAs (Decidable (a.1.data ≤ b.1.data))

instance {α : Type} : IsTotal (String × α) keyLe :=
  ⟨fun a b => le_total a.1.data b.1.data⟩

instance {α : Type} : IsTrans (String × α) keyLe :=
  ⟨fun _ _ _ h₁ h₂ => le_trans h₁ h₂⟩

instance {α : Type} : IsAntisymm (String × α) (keyLt (α := α)) :=
  ⟨fun _ _ h₁ h₂ => absurd h₂ (lt_asymm h₁)⟩

/-- Modelled from the spec: the `tiny_bmap!` map-builder macro produces an
ordered map (key-sorted), independent of construction-site insertion order
(spec §3 determinism invariant, §4.1); modelled as the key-sorted entry
list. -/
def tiny_bmap {α : Type} (l : List (String × α)) : List (String × α) :=
  List.insertionSort keyLe l

/-- Modelled from the spec: the `tiny_bmap!` builder for the error map, keyed
by `Variant` (ordered by numeric code). -/
def tiny_bmapE (l : List (Variant × String)) : List (Variant × String) :=
  List.insertionSort (fun a b => a.1.tag ≤ b.1.tag) l

/-- Modelled from the spec: the `tiny_bset!` set-builder macro, modelled as
the sorted element list. -/
def tiny_bset (l : List Nat) : List Nat :=
  List.insertionSort (· ≤ ·) l

/-- The interface (schema) data model (`Iface` in the source). -/
structure Iface where
  version : VerNo
  name : String
  global_state : List (String × GlobalIface)
  assignments : List (String × AssignIface)
  valencies : List String
  genesis : GenesisIface
  transitions : List (String × TransitionIface)
  extensions : List (String × TransitionIface)
  errors : List (Variant × String)
  default_operation : Option String
  types : Types
  deriving DecidableEq, Repr

/-- Lookup in an association-list map, returning the value of the first entry
with the given key. -/
def bmapLookup {α : Type} (m : List (String × α)) (k : String) : Option α :=
  (m.find? (fun e => e.1 == k)).map (fun e => e.2)

/-- Modelled from the spec: the external standard Type Registry; `get` resolves
a type name to its semantic type reference, represented here by the name
itself (spec §6). -/
structure StandardTypes where
  registry : String
  deriving DecidableEq, Repr

/-- Constructor `StandardTypes::new`. -/
def StandardTypes.new : StandardTypes := ⟨"RGBContract"⟩

/-- Modelled from the spec: registry lookup, `lookup(type-name) → semantic
type reference` (spec §6). -/
def StandardTypes.get (_ : StandardTypes) (name : String) : String := name

/-- Modelled from the spec: the registry's whole type system, as referenced by
the schema's `types` field. -/
def StandardTypes.type_system (t : StandardTypes) : String := t.registry

/-- Error code `SUPPLY_MISMATCH` from the source. -/
def SUPPLY_MISMATCH : Nat := 1

/-- Error code `NON_EQUAL_AMOUNTS` from the source. -/
def NON_EQUAL_AMOUNTS : Nat := 2

/-- Error code `INVALID_PROOF` from the source. -/
def INVALID_PROOF : Nat := 3

/-- Error code `INSUFFICIENT_RESERVES` from the source. -/
def INSUFFICIENT_RESERVES : Nat := 4

/-- Error code `INSUFFICIENT_COVERAGE` from the source. -/
def INSUFFICIENT_COVERAGE : Nat := 5

/-- The `global_state` entries of `rgb25()`, in source (construction-site)
order. -/
def rgb25GlobalEntries : List (String × GlobalIface) :=
  let types := StandardTypes.new
  [("name", GlobalIface.required (types.get "RGBContract.Name")),
   ("details", GlobalIface.optional (types.get "RGBContract.Details")),
   ("precision", GlobalIface.required (types.get "RGBContract.Precision")),
   ("terms", GlobalIface.required (types.get "RGBContract.AssetTerms")),
   ("issuedSupply", GlobalIface.required (types.get "RGBContract.Amount")),
   ("burnedSupply", GlobalIface.none_or_many (types.get "RGBContract.Amount"))]

/-- The RGB25 interface value built by `rgb25()` in the source, with every
map built through the canonical (key-sorted) builder from its
construction-site entry list. -/
def rgb25 : Iface :=
  let types := StandardTypes.new
  { version := .V1
    name := "RGB25"
    global_state := tiny_bmap rgb25GlobalEntries
    assignments := tiny_bmap
      [("assetOwner", AssignIface.privateState .Amount .OneOrMore),
       ("burnRight", AssignIface.publicState .Rights .NoneOrMore)]
    valencies := []
    genesis :=
      { metadata := some (types.get "RGBContract.IssueMeta")
        globals := tiny_bmap
          [("name", .Once),
           ("details", .NoneOrOnce),
           ("precision", .Once),
           ("terms", .Once),
           ("issuedSupply", .Once)]
        assignments := tiny_bmap [("assetOwner", .OnceOrMore)]
        valencies := []
        errors := tiny_bset [SUPPLY_MISMATCH, INVALID_PROOF, INSUFFICIENT_RESERVES] }
    transitions := tiny_bmap
      [("transfer",
        { optional := false
          metadata := none
          globals := []
          inputs := tiny_bmap [("assetOwner", .OnceOrMore)]
          assignments := tiny_bmap [("assetOwner", .OnceOrMore)]
          valencies := []
          errors := tiny_bset [NON_EQUAL_AMOUNTS]
          default_assignment := some "assetOwner" }),
       ("burn",
        { optional := true
          metadata := some (types.get "RGBContract.BurnMeta")
          globals := tiny_bmap [("burnedSupply", .Once)]
          inputs := tiny_bmap [("burnRight", .Once)]
          assignments := tiny_bmap [("burnRight", .NoneOrOnce)]
          valencies := []
          errors := tiny_bset [SUPPLY_MISMATCH, INVALID_PROOF, INSUFFICIENT_COVERAGE]
          default_assignment := none })]
    extensions := []
    errors := tiny_bmapE
      [(Variant.named SUPPLY_MISMATCH "supplyMismatch",
        "supply specified as a global parameter doesn't match the issued supply allocated to the asset owners"),
       (Variant.named NON_EQUAL_AMOUNTS "nonEqualAmounts",
        "the sum of spent assets doesn't equal to the sum of assets in outputs"),
       (Variant.named INVALID_PROOF "invalidProof",
        "the provided proof is invalid"),
       (Variant.named INSUFFICIENT_RESERVES "insufficientReserves",
        "reserve is insufficient to cover the issued assets"),
       (Variant.named INSUFFICIENT_COVERAGE "insufficientCoverage",
        "the claimed amount of burned assets is not covered by the assets in the operation inputs")]
    default_operation := some "transfer"
    types := .Strict (types.type_system) }

/-- Modelled from the spec: a decoded state value produced by the external
Value Codec (spec §1, §6); string-typed, numeric and unit payloads cover the
fields this interface reads. -/
inductive StrictVal
  | str (s : String)
  | num (n : Nat)
  | unit
  deriving DecidableEq, Repr

/-- Modelled from the spec: external decoder `Name::from_strict_val_unchecked`
of the Value Codec ("unchecked": total, with an arbitrary result on a payload
of the wrong shape). -/
def Name.from_strict_val_unchecked : StrictVal → String
  | .str s => s
  | .num n => toString n
  | .unit => ""

/-- Modelled from the spec: external decoder
`Details::from_strict_val_unchecked` of the Value Codec. -/
def Details.from_strict_val_unchecked : StrictVal → String
  | .str s => s
  | .num n => toString n
  | .unit => ""

/-- Modelled from the spec: external decoder
`Precision::from_strict_val_unchecked` of the Value Codec. -/
def Precision.from_strict_val_unchecked : StrictVal → Nat
  | .num n => n
  | .str _ => 0
  | .unit => 0

/-- Modelled from the spec: external decoder
`Amount::from_strict_val_unchecked` of the Value Codec; the amount type is
modelled as `Nat` (its overflow policy is an external primitive, spec §4.5). -/
def Amount.from_strict_val_unchecked : StrictVal → Nat
  | .num n => n
  | .str _ => 0
  | .unit => 0

/-- Modelled from the spec: external decoder
`AssetTerms::from_strict_val_unchecked` of the Value Codec. -/
def AssetTerms.from_strict_val_unchecked : StrictVal → String
  | .str s => s
  | .num n => toString n
  | .unit => ""

/-- Modelled from the spec: the Contract State Provider view bound by the
typed wrapper (`ContractIface` in the repository, outside `src/`): it carries
the interface identity the state was validated against and a per-field store
mapping each field name to its ordered sequence of decoded values (spec §3,
§6). -/
structure ContractIface where
  ifaceId : List Nat
  globals : List (String × List StrictVal)
  deriving DecidableEq, Repr

/-- Modelled from the spec: `global(field_name) → ordered sequence of decoded
values`, failing (`none`) for a field the bound interface does not declare
(spec §6). -/
def ContractIface.global (c : ContractIface) (f : String) : Option (List StrictVal) :=
  bmapLookup c.globals f

/-- The `Rgb25` typed wrapper over a contract state (newtype around
`ContractIface` in the source). -/
structure Rgb25 where
  toContract : ContractIface
  deriving DecidableEq, Repr

/-- The pinned interface identity constant `Rgb25::IFACE_ID` from the source,
as its literal 32-byte array. -/
def Rgb25.IFACE_ID : List Nat :=
  [0x5d, 0x36, 0x8e, 0x75, 0xa8, 0x2e, 0x15, 0x81, 0x3c, 0x12, 0x39, 0x6b,
   0x0e, 0x2b, 0xc0, 0x8b, 0xe9, 0x66, 0x82, 0x3f, 0x9e, 0x10, 0x18, 0x8d,
   0xf1, 0xd6, 0xfb, 0x24, 0x9b, 0x28, 0x28, 0xa5]

/-- The conversion `impl From<ContractIface> for Rgb25`: compares the carried
interface identity with `Rgb25::IFACE_ID`; the source's panic on mismatch is
modelled as `Except.error`. -/
def Rgb25.fromContractIface (iface : ContractIface) : Except String Rgb25 :=
  if iface.ifaceId ≠ Rgb25.IFACE_ID then
    .error "the provided interface is not RGB25 interface"
  else
    .ok ⟨iface⟩

/-- Accessor `Rgb25::name`: reads global `name`, `.expect`-panics when the
field is undeclared and index-panics when its value list is empty (both
modelled as `Except.error`), otherwise decodes the first bound value. -/
def Rgb25.name (r : Rgb25) : Except String String :=
  match r.toContract.global "name" with
  | none => .error "RGB25 interface requires global `name`"
  | some vals =>
    match vals with
    | [] => .error "index 0 out of range"
    | v :: _ => .ok (Name.from_strict_val_unchecked v)

/-- Accessor `Rgb25::details`: reads global `details`, `.expect`-panics when
the field is undeclared, returns `none` for an empty value list and otherwise
decodes the first bound value. -/
def Rgb25.details (r : Rgb25) : Except String (Option String) :=
  match r.toContract.global "details" with
  | none => .error "RGB25 interface requires global `details`"
  | some vals =>
    match vals with
    | [] => .ok none
    | v :: _ => .ok (some (Details.from_strict_val_unchecked v))

/-- Accessor `Rgb25::precision`: reads global `precision`, `.expect`-panics
when the field is undeclared and index-panics when its value list is empty,
otherwise decodes the first bound value. -/
def Rgb25.precision (r : Rgb25) : Except String Nat :=
  match r.toContract.global "precision" with
  | none => .error "RGB25 interface requires global `precision`"
  | some vals =>
    match vals with
    | [] => .error "index 0 out of range"
    | v :: _ => .ok (Precision.from_strict_val_unchecked v)

/-- Accessor `Rgb25::total_issued_supply`: reads global `issuedSupply`,
`.expect`-panics when the field is undeclared, otherwise sums the decoded
amount of every bound occurrence. -/
def Rgb25.total_issued_supply (r : Rgb25) : Except String Nat :=
  match r.toContract.global "issuedSupply" with
  | none => .error "RGB25 interface requires global `issuedSupply`"
  | some vals => .ok (vals.map Amount.from_strict_val_unchecked).sum

/-- Accessor `Rgb25::total_burned_supply`: reads global `burnedSupply`,
falling back to the empty sequence when the read fails
(`unwrap_or_default`), and sums the decoded amount of every bound
occurrence; this accessor never fails. -/
def Rgb25.total_burned_supply (r : Rgb25) : Nat :=
  (((r.toContract.global "burnedSupply").getD []).map
    Amount.from_strict_val_unchecked).sum

/-- Accessor `Rgb25::contract_data`: reads global `data`, `.expect`-panics
when the field is undeclared and index-panics when its value list is empty,
otherwise decodes the first bound value. -/
def Rgb25.contract_data (r : Rgb25) : Except String String :=
  match r.toContract.global "data" with
  | none => .error "RGB25 interface requires global `data`"
  | some vals =>
    match vals with
    | [] => .error "index 0 out of range"
    | v :: _ => .ok (AssetTerms.from_strict_val_unchecked v)

/-- Modelled from the spec: occurrence check against an optional declared
constraint; a field with no declared genesis occurrence is unconstrained
here. -/
def occCheckOpt : Option Occurrences → Nat → Bool
  | none, _ => true
  | some o, n => o.check n

/-- Modelled from the spec: a contract state conforms to an interface when
its per-field store is keyed exactly by the interface's declared global
fields and every field declared in the genesis spec satisfies its declared
occurrence range (spec §3: ContractState is "already checked by the external
validator to conform to exactly one Schema"; §4.2). -/
def conformsTo (i : Iface) (c : ContractIface) : Bool :=
  c.globals.all (fun e => (bmapLookup i.global_state e.1).isSome) &&
  i.global_state.all (fun e => (bmapLookup c.globals e.1).isSome) &&
  c.globals.all (fun e => occCheckOpt (bmapLookup i.genesis.globals e.1) e.2.length)

/-- A field name is declared by the interface when it is a key of
`global_state` or of `assignments`. -/
def keyDeclared (i : Iface) (f : String) : Bool :=
  (bmapLookup i.global_state f).isSome || (bmapLookup i.assignments f).isSome

/-- An error code is declared when some variant of the schema-wide error map
carries it as its tag. -/
def errDeclared (i : Iface) (code : Nat) : Bool :=
  i.errors.any (fun e => e.1.tag == code)

/-- Closure check for one operation specification: every referenced field
name (in produced globals, consumed inputs, produced assignments and the
default assignment) is declared by the interface, and every referenced error
code is in the schema-wide error map. -/
def opClosed (i : Iface) (globals inputs asg : List (String × Occurrences))
    (errs : List Nat) (da : Option String) : Bool :=
  globals.all (fun e => keyDeclared i e.1) &&
  inputs.all (fun e => keyDeclared i e.1) &&
  asg.all (fun e => keyDeclared i e.1) &&
  errs.all (fun code => errDeclared i code) &&
  (match da with
   | none => true
   | some f => keyDeclared i f)

/-- Closure check for a whole interface: the genesis spec and every
transition spec are closed. -/
def ifaceClosed (i : Iface) : Bool :=
  opClosed i i.genesis.globals [] i.genesis.assignments i.genesis.errors none &&
  i.transitions.all (fun t =>
    opClosed i t.2.globals t.2.inputs t.2.assignments t.2.errors
      t.2.default_assignment)

/-- All error codes referenced by the genesis spec or by any transition of an
interface. -/
def referencedErrs (i : Iface) : List Nat :=
  i.genesis.errors ++ (i.transitions.map (fun t => t.2.errors)).flatten

/-- A fixture contract state conforming to the RGB25 interface: every
declared global field is present, required singletons carry one value,
`details` is bound to zero values and `burnedSupply` to the two occurrences
`{3, 5}`. -/
def fixtureState : ContractIface :=
  ⟨Rgb25.IFACE_ID,
   [("burnedSupply", [.num 3, .num 5]),
    ("details", []),
    ("issuedSupply", [.num 1000]),
    ("name", [.str "Token"]),
    ("precision", [.num 8]),
    ("terms", [.unit])]⟩

/-- The `Rgb25` wrapper over `fixtureState`. -/
def fixtureWrapper : Rgb25 := ⟨fixtureState⟩

/-- A second fixture state: `details` is bound to one value and
`burnedSupply` to zero occurrences. -/
def fixtureStateD : ContractIface :=
  ⟨Rgb25.IFACE_ID,
   [("burnedSupply", []),
    ("details", [.str "Desc"]),
    ("issuedSupply", [.num 1000]),
    ("name", [.str "Token"]),
    ("precision", [.num 8]),
    ("terms", [.unit])]⟩

/-- A contract state with the matching identity but an empty field store
(every global read fails). -/
def missingState : ContractIface := ⟨Rgb25.IFACE_ID, []⟩

/-- A contract state whose carried interface identity differs from
`Rgb25::IFACE_ID`. -/
def badState : ContractIface := ⟨List.replicate 32 0, []⟩

/-- Strings with equal character data are equal. -/
theorem string_data_inj {s t : String} (h : s.data = t.data) : s = t :=
  congrArg String.mk h

/-- A key-sorted entry list with no duplicate keys is sorted under the
strict key order. -/
theorem sorted_keyLt {α : Type} {l : List (String × α)} (hs : l.Sorted keyLe)
    (hnd : (l.map Prod.fst).Nodup) : l.Sorted keyLt := by
  have hnd' : l.Pairwise (fun a b : String × α => a.1 ≠ b.1) :=
    List.pairwise_map.mp hnd
  exact (hs.and hnd').imp
    (fun h => lt_of_le_of_ne h.1 (fun hd => h.2 (string_data_inj hd)))

/-- The canonical map builder sorts its entry list by key. -/
theorem tiny_bmap_sorted {α : Type} (l : List (String × α)) :
    (tiny_bmap l).Sorted keyLe :=
  List.sorted_insertionSort keyLe l

/-- The canonical map builder permutes its entry list. -/
theorem tiny_bmap_perm {α : Type} (l : List (String × α)) :
    List.Perm (tiny_bmap l) l :=
  List.perm_insertionSort keyLe l

/-- The canonical map built from an entry list with no duplicate keys does
not depend on the order of the entries. -/
theorem tiny_bmap_eq_of_perm {α : Type} {l₁ l₂ : List (String × α)}
    (hp : List.Perm l₁ l₂) (hnd : (l₁.map Prod.fst).Nodup) :
    tiny_bmap l₁ = tiny_bmap l₂ := by
  have p₁ := tiny_bmap_perm l₁
  have p₂ := tiny_bmap_perm l₂
  have hp' : List.Perm (tiny_bmap l₁) (tiny_bmap l₂) :=
    p₁.trans (hp.trans p₂.symm)
  have hnd₁ : ((tiny_bmap l₁).map Prod.fst).Nodup :=
    ((p₁.map Prod.fst).nodup_iff).mpr hnd
  have hnd₂ : ((tiny_bmap l₂).map Prod.fst).Nodup :=
    ((hp'.map Prod.fst).nodup_iff).mp hnd₁
  exact List.eq_of_perm_of_sorted hp'
    (sorted_keyLt (tiny_bmap_sorted l₁) hnd₁)
    (sorted_keyLt (tiny_bmap_sorted l₂) hnd₂)

/-- Claim C1: constructing the `Rgb25` typed wrapper from a `ContractIface`
whose carried interface identity differs from `Rgb25::IFACE_ID` fails with
an unrecoverable error (the source's panic, modelled as `Except.error`), and
for every `ContractIface` whose identity equals `Rgb25::IFACE_ID` the
conversion succeeds and yields a wrapper over that same state. -/
theorem rgb25_binding (c : ContractIface) :
    (c.ifaceId ≠ Rgb25.IFACE_ID →
      Rgb25.fromContractIface c =
        .error "the provided interface is not RGB25 interface") ∧
    (c.ifaceId = Rgb25.IFACE_ID →
      Rgb25.fromContractIface c = .ok ⟨c⟩) := by
  constructor
  · intro h
    simp [Rgb25.fromContractIface, h]
  · intro h
    simp [Rgb25.fromContractIface, h]

/-- Witness for C1: the conversion rejects a state carrying the all-zero
identity and accepts the fixture state, wrapping it unchanged. -/
theorem rgb25_binding_witness :
    Rgb25.fromContractIface badState =
      .error "the provided interface is not RGB25 interface" ∧
    Rgb25.fromContractIface fixtureState = .ok ⟨fixtureState⟩ :=
  ⟨(rgb25_binding badState).1 (by decide),
   (rgb25_binding fixtureState).2 (by decide)⟩

/-- Claim C2: for every bound state, `Rgb25::name` and `Rgb25::precision`
return the decoded first bound value of the globals `name` and `precision`;
if the field is missing or its bound value list is empty, the call fails
unrecoverably (`Except.error`, modelling the source's `.expect` and indexing
panics). -/
theorem rgb25_required_singletons (r : Rgb25) :
    ((r.toContract.global "name" = none ∨ r.toContract.global "name" = some [] →
        ∃ msg, Rgb25.name r = .error msg) ∧
      (∀ v rest, r.toContract.global "name" = some (v :: rest) →
        Rgb25.name r = .ok (Name.from_strict_val_unchecked v))) ∧
    ((r.toContract.global "precision" = none ∨
        r.toContract.global "precision" = some [] →
        ∃ msg, Rgb25.precision r = .error msg) ∧
      (∀ v rest, r.toContract.global "precision" = some (v :: rest) →
        Rgb25.precision r = .ok (Precision.from_strict_val_unchecked v))) := by
  refine ⟨⟨?_, ?_⟩, ⟨?_, ?_⟩⟩
  · rintro (h | h)
    · exact ⟨"RGB25 interface requires global `name`", by simp [Rgb25.name, h]⟩
    · exact ⟨"index 0 out of range", by simp [Rgb25.name, h]⟩
  · intro v rest h
    simp [Rgb25.name, h]
  · rintro (h | h)
    · exact ⟨"RGB25 interface requires global `precision`",
        by simp [Rgb25.precision, h]⟩
    · exact ⟨"index 0 out of range", by simp [Rgb25.precision, h]⟩
  · intro v rest h
    simp [Rgb25.precision, h]

/-- Witness for C2: on the fixture state `name` and `precision` decode the
single bound values, and on the empty state both fail. -/
theorem rgb25_required_singletons_witness :
    Rgb25.name fixtureWrapper = .ok "Token" ∧
    Rgb25.precision fixtureWrapper = .ok 8 ∧
    (∃ msg, Rgb25.name ⟨missingState⟩ = .error msg) ∧
    (∃ msg, Rgb25.precision ⟨missingState⟩ = .error msg) :=
  ⟨(rgb25_required_singletons fixtureWrapper).1.2 (.str "Token") [] (by decide),
   (rgb25_required_singletons fixtureWrapper).2.2 (.num 8) [] (by decide),
   (rgb25_required_singletons ⟨missingState⟩).1.1 (Or.inl (by decide)),
   (rgb25_required_singletons ⟨missingState⟩).2.1 (Or.inl (by decide))⟩

/-- Claim C3: for every bound state, `Rgb25::details` returns `none` when the
global `details` field has zero bound values, and `some` of the decoded
first value when it has one or more bound values; zero bound occurrences
yields the absent case, not an error. -/
theorem rgb25_details_optional (r : Rgb25) (l : List StrictVal)
    (h : r.toContract.global "details" = some l) :
    (l = [] → Rgb25.details r = .ok none) ∧
    (∀ v rest, l = v :: rest →
      Rgb25.details r = .ok (some (Details.from_strict_val_unchecked v))) := by
  constructor
  · rintro rfl
    simp [Rgb25.details, h]
  · rintro v rest rfl
    simp [Rgb25.details, h]

/-- Witness for C3: the fixture with zero bound `details` values yields
`none`; the fixture with one bound value yields its decoding. -/
theorem rgb25_details_optional_witness :
    Rgb25.details fixtureWrapper = .ok none ∧
    Rgb25.details ⟨fixtureStateD⟩ = .ok (some "Desc") :=
  ⟨(rgb25_details_optional fixtureWrapper [] (by decide)).1 rfl,
   (rgb25_details_optional ⟨fixtureStateD⟩ [.str "Desc"] (by decide)).2
     (.str "Desc") [] rfl⟩

/-- Claim C4: for every bound state, `Rgb25::total_burned_supply` equals the
sum of the decoded amounts of every bound occurrence of the global
`burnedSupply` field; when the field is entirely absent or has zero
occurrences the result is 0 (never an error), and for occurrences `{3, 5}`
the result is 8. -/
theorem rgb25_total_burned (r : Rgb25) :
    (r.toContract.global "burnedSupply" = none →
      Rgb25.total_burned_supply r = 0) ∧
    (r.toContract.global "burnedSupply" = some [] →
      Rgb25.total_burned_supply r = 0) ∧
    (∀ l, r.toContract.global "burnedSupply" = some l →
      Rgb25.total_burned_supply r =
        (l.map Amount.from_strict_val_unchecked).sum) ∧
    (∀ l, r.toContract.global "burnedSupply" = some l →
      l.map Amount.from_strict_val_unchecked = [3, 5] →
      Rgb25.total_burned_supply r = 8) := by
  refine ⟨?_, ?_, ?_, ?_⟩
  · intro h
    simp [Rgb25.total_burned_supply, h]
  · intro h
    simp [Rgb25.total_burned_supply, h]
  · intro l h
    simp [Rgb25.total_burned_supply, h]
  · intro l h h35
    unfold Rgb25.total_burned_supply
    rw [h, Option.getD_some, h35]
    rfl

/-- Witness for C4: the fixture state with occurrences `{3, 5}` sums to 8,
the empty state (field absent) sums to 0, and the fixture with zero
occurrences sums to 0. -/
theorem rgb25_total_burned_witness :
    Rgb25.total_burned_supply fixtureWrapper = 8 ∧
    Rgb25.total_burned_supply ⟨missingState⟩ = 0 ∧
    Rgb25.total_burned_supply ⟨fixtureStateD⟩ = 0 :=
  ⟨(rgb25_total_burned fixtureWrapper).2.2.2 [.num 3, .num 5]
     (by decide) (by decide),
   (rgb25_total_burned ⟨missingState⟩).1 (by decide),
   (rgb25_total_burned ⟨fixtureStateD⟩).2.1 (by decide)⟩

/-- Claim C5: for every contract state conforming to the schema built by
`rgb25()` (its globals are exactly the declared ones, which include `terms`
but no field named `data`), `Rgb25::contract_data` fails unrecoverably: it
reads the global field `data`, which the schema never declares. -/
theorem rgb25_contract_data_undeclared (c : ContractIface)
    (h : conformsTo rgb25 c = true) :
    Rgb25.contract_data ⟨c⟩ =
      .error "RGB25 interface requires global `data`" := by
  simp only [conformsTo, Bool.and_eq_true, List.all_eq_true] at h
  obtain ⟨⟨h₁, _⟩, _⟩ := h
  have hnone : c.global "data" = none := by
    unfold ContractIface.global bmapLookup
    cases hf : c.globals.find? (fun e => e.1 == "data") with
    | none => rfl
    | some e =>
      exfalso
      have hmem := List.mem_of_find?_eq_some hf
      have hkey : e.1 = "data" := by
        have := List.find?_some hf
        simpa using this
      have hdecl := h₁ e hmem
      rw [hkey] at hdecl
      have : bmapLookup rgb25.global_state "data" = none := by decide
      rw [this] at hdecl
      simp at hdecl
  simp [Rgb25.contract_data, hnone]

/-- Witness for C5: the conforming fixture state makes `contract_data`
fail. -/
theorem rgb25_contract_data_undeclared_witness :
    Rgb25.contract_data ⟨fixtureState⟩ =
      .error "RGB25 interface requires global `data`" :=
  rgb25_contract_data_undeclared fixtureState (by decide)

/-- Counterexample for C7 as stated: the error codes referenced by genesis
or a transition are not only `1, 2, 3, 5` — the genesis spec also references
`INSUFFICIENT_RESERVES = 4`. -/
theorem rgb25_closure_counterexample :
    4 ∈ referencedErrs rgb25 ∧
    4 ∈ rgb25.genesis.errors ∧
    INSUFFICIENT_RESERVES = 4 ∧
    (4 ∈ ([1, 2, 3, 5] : List Nat)) = False := by
  refine ⟨by decide, by decide, rfl, by decide⟩

/-- Claim C7 (amended: the referenced error codes are `1, 2, 3, 4, 5`, since
genesis also references `INSUFFICIENT_RESERVES = 4`): the schema returned by
`rgb25()` satisfies closure — every field name referenced by its genesis
spec and by each transition spec (in globals, inputs, assignments, or
default assignment) is a key of `global_state` or `assignments`, and every
error code referenced by genesis or a transition is a key of the
schema-wide errors map, which holds exactly the five codes `1..5` with
pairwise-distinct symbolic names. -/
theorem rgb25_closure :
    ifaceClosed rgb25 = true ∧
    (tiny_bset (referencedErrs rgb25)).dedup = [1, 2, 3, 4, 5] ∧
    rgb25.errors.map (fun e => e.1.tag) = [1, 2, 3, 4, 5] ∧
    (rgb25.errors.map (fun e => e.1.vname)).Nodup := by
  refine ⟨by decide, by decide, by decide, by decide⟩

/-- Claim C9: `rgb25` is deterministic — two invocations yield structurally
equal interface values (hence identical derived identities), and the
canonical map builder used for all its internal maps does not depend on
construction-site insertion order: it maps any two permutations of an entry
list with distinct keys to the same map, in particular any permutation of
the source-order `global_state` entries to `rgb25.global_state`. -/
theorem rgb25_deterministic :
    rgb25 = rgb25 ∧
    (∀ {α : Type} {l₁ l₂ : List (String × α)}, List.Perm l₁ l₂ →
      (l₁.map Prod.fst).Nodup → tiny_bmap l₁ = tiny_bmap l₂) ∧
    (∀ l, List.Perm l rgb25GlobalEntries →
      tiny_bmap l = rgb25.global_state) := by
  refine ⟨rfl, ?_, ?_⟩
  · intro α l₁ l₂ hp hnd
    exact tiny_bmap_eq_of_perm hp hnd
  · intro l hp
    have hnd : (rgb25GlobalEntries.map Prod.fst).Nodup := by decide
    have hnd' : (l.map Prod.fst).Nodup :=
      ((hp.map Prod.fst).nodup_iff).mpr hnd
    exact tiny_bmap_eq_of_perm hp hnd'

/-- Witness for C9: the reversed `global_state` entry list builds the same
canonical map. -/
theorem rgb25_deterministic_witness :
    tiny_bmap rgb25GlobalEntries.reverse = rgb25.global_state :=
  rgb25_deterministic.2.2 rgb25GlobalEntries.reverse
    (List.reverse_perm rgb25GlobalEntries)

/-- Claim C10: for every contract state conforming to the `rgb25()` schema
(whose genesis binds the global `issuedSupply` with occurrence `Once`, so
exactly one value is bound), `Rgb25::total_issued_supply` returns exactly
that single decoded amount, even though the accessor folds (sums) over all
bound occurrences of the field. -/
theorem rgb25_total_issued_single (c : ContractIface)
    (h : conformsTo rgb25 c = true) :
    ∃ v, c.global "issuedSupply" = some [v] ∧
      Rgb25.total_issued_supply ⟨c⟩ =
        .ok (Amount.from_strict_val_unchecked v) := by
  simp only [conformsTo, Bool.and_eq_true, List.all_eq_true] at h
  obtain ⟨⟨_, h₂⟩, h₃⟩ := h
  have hmemIface :
      ("issuedSupply", GlobalIface.required "RGBContract.Amount") ∈
        rgb25.global_state := by decide
  have hsome := h₂ _ hmemIface
  rw [Option.isSome_iff_exists] at hsome
  obtain ⟨l, hl⟩ := hsome
  obtain ⟨e, hf, he⟩ : ∃ e, c.globals.find? (fun e => e.1 == "issuedSupply") = some e ∧ e.2 = l := by
    unfold bmapLookup at hl
    cases hf : c.globals.find? (fun e => e.1 == "issuedSupply") with
    | none => rw [hf] at hl; simp at hl
    | some e =>
      rw [hf] at hl
      simp at hl
      exact ⟨e, rfl, hl⟩
  have hmem := List.mem_of_find?_eq_some hf
  have hkey : e.1 = "issuedSupply" := by
    have := List.find?_some hf
    simpa using this
  have hocc := h₃ e hmem
  rw [hkey] at hocc
  have hg : bmapLookup rgb25.genesis.globals "issuedSupply" =
      some Occurrences.Once := by decide
  rw [hg] at hocc
  simp only [occCheckOpt, Occurrences.check, Occurrences.minCount,
    Occurrences.maxCount, Bool.and_eq_true, decide_eq_true_eq] at hocc
  have hlen : e.2.length = 1 := by omega
  rw [he] at hlen
  obtain ⟨v, rfl⟩ := List.length_eq_one.mp hlen
  refine ⟨v, hl, ?_⟩
  simp [Rgb25.total_issued_supply, ContractIface.global, hl]

/-- Witness for C10: on the conforming fixture state the accessor returns
the single bound issued supply. -/
theorem rgb25_total_issued_single_witness :
    ∃ v, fixtureState.global "issuedSupply" = some [v] ∧
      Rgb25.total_issued_supply ⟨fixtureState⟩ =
        .ok (Amount.from_strict_val_unchecked v) :=
  rgb25_total_issued_single fixtureState (by decide)

end RgbWallet
